import Mathlib

/-!
Verification of the execution-preparation core (`src/cpu/exec_module.cc`):
a shallow embedding of `ExecModule::Prepare`, `ExecModule::Init`,
`ExecModule::Uninit`, `ExecModule::InjectGlobals` and the data they operate
on, together with theorems about the properties the module is documented
to have.

Modelling conventions:
* Guest memory is a byte-addressable map `Nat → Nat` (each cell holds one
  byte, reduced mod 256 on every store, exactly as a `uint8_t*` view does).
* The host is little-endian, so `*(uint32_t*)slot = XESWAP32BE(v)` places
  the bytes of `v` into guest memory in big-endian order; `write32BE`
  embeds that store directly and `read32BE` is the corresponding load.
* Collaborators that live outside this translation unit (the LLVM linker,
  bitcode parser, the symbol database's `Analyze`, the code generator, the
  execution engine) are represented by their observable outcomes, supplied
  in an environment record; the control flow that consumes those outcomes
  is translated from the source line by line.
* The `XEEXPECTZERO` / `XEEXPECTNOTNULL` / `XEEXPECTTRUE` macros jump to
  the `XECLEANUP` label, making the function return the current
  `result_code` (which stays `1` until the end of the happy path); the
  embedding mirrors each such jump with an early return carrying `some 1`.
* `Prepare` additionally records an event trace so that ordering and
  occurrence properties ("runs before", "is skipped") can be stated.
-/

/-- Kind of a kernel export (`KernelExport::Function` / `Variable`). -/
inductive ExportType
  | Function
  | Variable
deriving DecidableEq, Repr

/-- One resolved kernel export descriptor: name, kind, whether the
emulator implements it, and (for variables) the 32-bit value to install. -/
structure KernelExport where
  name : String
  type : ExportType
  is_implemented : Bool
  variable_ptr : Nat
deriving DecidableEq, Repr

/-- A variable symbol from the symbol database: a guest address plus an
optional binding to a kernel export. -/
structure VariableSymbol where
  address : Nat
  kernel_export : Option KernelExport
deriving DecidableEq, Repr

/-- Guest memory: one byte per address. -/
def Mem : Type := Nat → Nat

/-- Store one byte (`uint8_t` store: the value is truncated mod 256). -/
def write8 (m : Mem) (a v : Nat) : Mem :=
  fun x => if x = a then v % 256 else m x

/-- The store `*(uint32_t*)(mem + a) = XESWAP32BE(v)` performed on the
little-endian host: the four bytes of `v` land in guest memory in
big-endian order (most significant byte at the lowest address). -/
def write32BE (m : Mem) (a v : Nat) : Mem :=
  write8 (write8 (write8 (write8 m a (v / 2 ^ 24)) (a + 1) (v / 2 ^ 16))
      (a + 2) (v / 2 ^ 8)) (a + 3) v

/-- Read back a 32-bit big-endian word from guest memory. -/
def read32BE (m : Mem) (a : Nat) : Nat :=
  m a % 256 * 2 ^ 24 + m (a + 1) % 256 * 2 ^ 16 +
    m (a + 2) % 256 * 2 ^ 8 + m (a + 3) % 256

/-- The warning `Init` logs for a variable bound to an unimplemented
export (`XELOGCPU("WARNING: imported a variable with no value: %s", ...)`). -/
def warnMsg (name : String) : String :=
  "WARNING: imported a variable with no value: " ++ name

/-- The guest address a variable-binding step stores to, if any: bound
variables whose export is not function-kind are written at their own
address; everything else is left alone. -/
def VariableSymbol.writesAt (var : VariableSymbol) : Option Nat :=
  match var.kernel_export with
  | none => none
  | some ke => if ke.type = ExportType.Function then none else some var.address

/-- The warning a single variable-binding step emits, if any. -/
def warnOf (var : VariableSymbol) : Option String :=
  match var.kernel_export with
  | none => none
  | some ke =>
    if ke.type = ExportType.Function then none
    else if ke.is_implemented then none
    else some (warnMsg ke.name)

/-- Guest memory plus the warnings logged so far, threaded through the
variable-binding loop of `Init`. -/
structure BindState where
  mem : Mem
  warnings : List String

/-- One iteration of the variable-binding loop in `ExecModule::Init`:
skip unbound variables, skip function-kind exports (the explicitly
unhandled case in the source), write the export's value for implemented
exports, and write the `0xDEADBEEF` sentinel plus a warning otherwise. -/
def bindVariable (s : BindState) (var : VariableSymbol) : BindState :=
  match var.kernel_export with
  | none => s
  | some ke =>
    if ke.type = ExportType.Function then
      -- "Not exactly sure what this should be..." : no action taken.
      s
    else if ke.is_implemented then
      { s with mem := write32BE s.mem var.address ke.variable_ptr }
    else
      { mem := write32BE s.mem var.address 0xDEADBEEF,
        warnings := s.warnings ++ [warnMsg ke.name] }

/-- The whole variable-binding loop, in list order. -/
def bindVariables (s : BindState) (vars : List VariableSymbol) : BindState :=
  vars.foldl bindVariable s

/-- A function inside the generated LLVM module: its name and whether it
is a mere declaration (no body). -/
structure Fn where
  name : String
  isDeclaration : Bool
deriving DecidableEq, Repr

/-- The generated LLVM module: the functions it holds and the injected
global variables. -/
structure GenModule where
  functions : List Fn
  globals : List String
deriving DecidableEq, Repr

/-- `Module::getFunction`: first function with the given name, if any. -/
def GenModule.getFunction (m : GenModule) (fname : String) : Option Fn :=
  m.functions.find? (fun f => f.name = fname)

/-- `ExecutionEngine::runFunction` applied to the (possibly null) result
of `getFunction`: running a null function pointer crashes the host
process, modelled as `none`; otherwise the engine produces the function's
integer result. -/
def runFunction (f : Option Fn) (ret : Int) : Option Int :=
  match f with
  | none => none
  | some _ => some ret

/-- Outcomes `ExecModule::Init` depends on that are produced by
collaborators: whether `sdb_->GetAllVariables` succeeds (it returns
nonzero on failure), and the value `xe_module_init` returns when run. -/
structure InitEnv where
  getVarsOk : Bool
  initFnResult : Int
deriving DecidableEq, Repr

/-- What `ExecModule::Init` leaves behind: guest memory, the warnings it
logged, and its result (`none` models the crash of running a null
`xe_module_init`; `some r` is the returned code). -/
structure InitOutcome where
  mem : Mem
  warnings : List String
  result : Option Int

/-- `ExecModule::Init`: bail out with 1 if the variable list cannot be
fetched; otherwise run the variable-binding loop over all variable
symbols, run engine static constructors (no guest-memory effect), then
fetch `xe_module_init` and run it, returning its value. -/
def ExecModule.Init (gm : GenModule) (mem : Mem) (ienv : InitEnv)
    (vars : List VariableSymbol) : InitOutcome :=
  if ienv.getVarsOk = false then
    { mem := mem, warnings := [], result := some 1 }
  else
    let bs := bindVariables { mem := mem, warnings := [] } vars
    match runFunction (gm.getFunction "xe_module_init") ienv.initFnResult with
    | none => { mem := bs.mem, warnings := bs.warnings, result := none }
    | some r => { mem := bs.mem, warnings := bs.warnings, result := some r }

/-- `ExecModule::Uninit`: fetch `xe_module_uninit` and run it through the
engine with no null check (crash, i.e. `none`, when it is absent), run
engine static destructors, and return 0. `uninitFnResult` is whatever the
guest teardown function returns; the source discards it. -/
def ExecModule.Uninit (gm : GenModule) (uninitFnResult : Int) : Option Int :=
  match runFunction (gm.getFunction "xe_module_uninit") uninitFnResult with
  | none => none
  | some _ => some 0

-- ### Basic memory lemmas

lemma write8_at (m : Mem) (a v : Nat) : write8 m a v a = v % 256 := by
  simp [write8]

lemma write8_ne (m : Mem) (a v x : Nat) (h : x ≠ a) : write8 m a v x = m x := by
  simp [write8, h]

lemma write32BE_at0 (m : Mem) (a v : Nat) :
    write32BE m a v a = v / 2 ^ 24 % 256 := by
  unfold write32BE
  rw [write8_ne _ _ _ _ (by omega), write8_ne _ _ _ _ (by omega),
    write8_ne _ _ _ _ (by omega), write8_at]

lemma write32BE_at1 (m : Mem) (a v : Nat) :
    write32BE m a v (a + 1) = v / 2 ^ 16 % 256 := by
  unfold write32BE
  rw [write8_ne _ _ _ _ (by omega), write8_ne _ _ _ _ (by omega), write8_at]

lemma write32BE_at2 (m : Mem) (a v : Nat) :
    write32BE m a v (a + 2) = v / 2 ^ 8 % 256 := by
  unfold write32BE
  rw [write8_ne _ _ _ _ (by omega), write8_at]

lemma write32BE_at3 (m : Mem) (a v : Nat) :
    write32BE m a v (a + 3) = v % 256 := by
  unfold write32BE
  rw [write8_at]

lemma write32BE_outside (m : Mem) (a v x : Nat) (h : x < a ∨ a + 4 ≤ x) :
    write32BE m a v x = m x := by
  unfold write32BE
  rw [write8_ne _ _ _ _ (by omega), write8_ne _ _ _ _ (by omega),
    write8_ne _ _ _ _ (by omega), write8_ne _ _ _ _ (by omega)]

lemma read32BE_write32BE (m : Mem) (a v : Nat) :
    read32BE (write32BE m a v) a = v % 2 ^ 32 := by
  unfold read32BE
  rw [write32BE_at0, write32BE_at1, write32BE_at2, write32BE_at3]
  omega

lemma read32BE_congr (m m' : Mem) (a : Nat) (h0 : m a = m' a)
    (h1 : m (a + 1) = m' (a + 1)) (h2 : m (a + 2) = m' (a + 2))
    (h3 : m (a + 3) = m' (a + 3)) : read32BE m a = read32BE m' a := by
  unfold read32BE
  rw [h0, h1, h2, h3]

-- ### Variable-binding loop lemmas

lemma bindVariable_mem_outside (s : BindState) (var : VariableSymbol) (x : Nat)
    (h : ∀ a, var.writesAt = some a → x < a ∨ a + 4 ≤ x) :
    (bindVariable s var).mem x = s.mem x := by
  rcases hke : var.kernel_export with _ | ke
  · simp [bindVariable, hke]
  · by_cases hty : ke.type = ExportType.Function
    · simp [bindVariable, hke, hty]
    · have hx := h var.address (by simp [VariableSymbol.writesAt, hke, hty])
      by_cases himp : ke.is_implemented = true
      · simp [bindVariable, hke, hty, himp, write32BE_outside _ _ _ _ hx]
      · simp [bindVariable, hke, hty, himp, write32BE_outside _ _ _ _ hx]

lemma bindVariable_none (s : BindState) (var : VariableSymbol)
    (h : var.writesAt = none) : bindVariable s var = s := by
  rcases hke : var.kernel_export with _ | ke
  · simp [bindVariable, hke]
  · by_cases hty : ke.type = ExportType.Function
    · simp [bindVariable, hke, hty]
    · simp [VariableSymbol.writesAt, hke, hty] at h

lemma bindVariables_cons (s : BindState) (w : VariableSymbol)
    (ws : List VariableSymbol) :
    bindVariables s (w :: ws) = bindVariables (bindVariable s w) ws := by
  simp [bindVariables]

lemma bindVariables_mem_frame (vars : List VariableSymbol) (s : BindState)
    (x : Nat)
    (h : ∀ w ∈ vars, ∀ a, w.writesAt = some a → x < a ∨ a + 4 ≤ x) :
    (bindVariables s vars).mem x = s.mem x := by
  induction vars generalizing s with
  | nil => rfl
  | cons w ws ih =>
    rw [bindVariables_cons]
    rw [ih (bindVariable s w) (fun v hv => h v (List.mem_cons_of_mem _ hv))]
    exact bindVariable_mem_outside s w x (h w (List.mem_cons_self _ _))

lemma bindVariable_warnings (s : BindState) (var : VariableSymbol) :
    (bindVariable s var).warnings = s.warnings ++ (warnOf var).toList := by
  rcases hke : var.kernel_export with _ | ke
  · simp [bindVariable, warnOf, hke]
  · by_cases hty : ke.type = ExportType.Function
    · simp [bindVariable, warnOf, hke, hty]
    · by_cases himp : ke.is_implemented = true
      · simp [bindVariable, warnOf, hke, hty, himp]
      · simp [bindVariable, warnOf, hke, hty, himp]

lemma bindVariables_warnings (vars : List VariableSymbol) (s : BindState) :
    (bindVariables s vars).warnings = s.warnings ++ vars.filterMap warnOf := by
  induction vars generalizing s with
  | nil => simp [bindVariables]
  | cons w ws ih =>
    rw [bindVariables_cons, ih, bindVariable_warnings]
    rcases hw : warnOf w with _ | msg <;> simp [hw]

lemma bindVariables_append_cons (s : BindState) (l1 l2 : List VariableSymbol)
    (var : VariableSymbol) :
    bindVariables s (l1 ++ var :: l2) =
      bindVariables (bindVariable (bindVariables s l1) var) l2 := by
  simp [bindVariables, List.foldl_append]

lemma init_mem_eq (gm : GenModule) (mem : Mem) (ienv : InitEnv)
    (vars : List VariableSymbol) (hok : ienv.getVarsOk = true) :
    (ExecModule.Init gm mem ienv vars).mem =
      (bindVariables { mem := mem, warnings := [] } vars).mem := by
  unfold ExecModule.Init
  rw [hok]
  rcases gm.getFunction "xe_module_init" with _ | f <;> simp [runFunction]

lemma init_warnings_eq (gm : GenModule) (mem : Mem) (ienv : InitEnv)
    (vars : List VariableSymbol) (hok : ienv.getVarsOk = true) :
    (ExecModule.Init gm mem ienv vars).warnings =
      (bindVariables { mem := mem, warnings := [] } vars).warnings := by
  unfold ExecModule.Init
  rw [hok]
  rcases gm.getFunction "xe_module_init" with _ | f <;> simp [runFunction]

lemma init_result_const (gm : GenModule) (mem : Mem) (ienv : InitEnv)
    (vars : List VariableSymbol) :
    (ExecModule.Init gm mem ienv vars).result =
      (ExecModule.Init gm mem ienv []).result := by
  unfold ExecModule.Init
  by_cases hok : ienv.getVarsOk = false
  · simp [hok]
  · rcases gm.getFunction "xe_module_init" with _ | f <;> simp [hok, runFunction]

-- ### Concrete instances used by witnesses and counterexamples

def mem0 : Mem := fun _ => 0

def keVar : KernelExport :=
  { name := "XboxHardwareInfo", type := ExportType.Variable,
    is_implemented := true, variable_ptr := 0x12345678 }

def varSym : VariableSymbol := { address := 0x100, kernel_export := some keVar }

def keUnimpl : KernelExport :=
  { name := "XGetAVPack", type := ExportType.Variable,
    is_implemented := false, variable_ptr := 0 }

def varSymU : VariableSymbol := { address := 0x200, kernel_export := some keUnimpl }

def keFn : KernelExport :=
  { name := "XamGetSystemVersion", type := ExportType.Function,
    is_implemented := true, variable_ptr := 0 }

def varSymF : VariableSymbol := { address := 0x300, kernel_export := some keFn }

def ienv0 : InitEnv := { getVarsOk := true, initFnResult := 0 }

def fnInit : Fn := { name := "xe_module_init", isDeclaration := false }

def fnUninit : Fn := { name := "xe_module_uninit", isDeclaration := false }

def thunkFns0 : List Fn := [fnInit, fnUninit]

def gmW : GenModule := { functions := thunkFns0, globals := ["xe_memory_base"] }

-- ### Claim C2

/-- Claim C2: for every variable symbol bound to a kernel export whose kind
is not function and whose implemented flag is set, after `Init()` returns
the guest memory word at that variable's address equals the export's
host-provided value in the guest's big-endian byte order (`read32BE`
recovers the value, and the most significant byte sits at the lowest
address). The disjointness hypothesis reflects the symbol-database
invariant that distinct variable symbols occupy distinct slots. -/
theorem init_implemented_binding
    (gm : GenModule) (mem : Mem) (ienv : InitEnv)
    (vars l1 l2 : List VariableSymbol) (var : VariableSymbol) (ke : KernelExport)
    (hok : ienv.getVarsOk = true)
    (hsplit : vars = l1 ++ var :: l2)
    (hke : var.kernel_export = some ke)
    (hty : ke.type ≠ ExportType.Function)
    (himp : ke.is_implemented = true)
    (hv : ke.variable_ptr < 2 ^ 32)
    (hdisj : ∀ w ∈ l2, ∀ b, w.writesAt = some b →
      b + 4 ≤ var.address ∨ var.address + 4 ≤ b) :
    read32BE (ExecModule.Init gm mem ienv vars).mem var.address = ke.variable_ptr ∧
    (ExecModule.Init gm mem ienv vars).mem var.address =
      ke.variable_ptr / 2 ^ 24 % 256 := by
  rw [init_mem_eq gm mem ienv vars hok, hsplit, bindVariables_append_cons]
  have hbind : (bindVariable (bindVariables { mem := mem, warnings := [] } l1) var).mem =
      write32BE (bindVariables { mem := mem, warnings := [] } l1).mem var.address
        ke.variable_ptr := by
    simp [bindVariable, hke, hty, himp]
  have hframe : ∀ y, var.address ≤ y → y < var.address + 4 →
      (bindVariables (bindVariable (bindVariables { mem := mem, warnings := [] } l1) var) l2).mem y =
        (bindVariable (bindVariables { mem := mem, warnings := [] } l1) var).mem y := by
    intro y hy1 hy2
    apply bindVariables_mem_frame
    intro w hw a ha
    rcases hdisj w hw a ha with h | h <;> omega
  constructor
  · have hcongr : read32BE (bindVariables (bindVariable (bindVariables { mem := mem, warnings := [] } l1) var) l2).mem var.address =
        read32BE (bindVariable (bindVariables { mem := mem, warnings := [] } l1) var).mem var.address := by
      apply read32BE_congr
      · exact hframe var.address (Nat.le_refl _) (by omega)
      · exact hframe (var.address + 1) (by omega) (by omega)
      · exact hframe (var.address + 2) (by omega) (by omega)
      · exact hframe (var.address + 3) (by omega) (by omega)
    rw [hcongr, hbind, read32BE_write32BE]
    omega
  · rw [hframe var.address (Nat.le_refl _) (by omega), hbind, write32BE_at0]

/-- Claim C2, witness: a single implemented variable export is installed at
`0x100` and read back intact. -/
theorem init_implemented_binding_witness :
    read32BE (ExecModule.Init gmW mem0 ienv0 [varSym]).mem varSym.address =
      keVar.variable_ptr ∧
    (ExecModule.Init gmW mem0 ienv0 [varSym]).mem varSym.address =
      keVar.variable_ptr / 2 ^ 24 % 256 :=
  init_implemented_binding gmW mem0 ienv0 [varSym] [] [] varSym keVar rfl rfl rfl
    (by decide) rfl (by decide) (by simp)

-- ### Claim C6

/-- Claim C6: for every variable symbol bound to a non-function kernel
export whose implemented flag is clear, `Init()` writes the fixed sentinel
`0xDEADBEEF` into the guest word at the variable's address and the warning
log contains exactly the warnings produced by the binding loop — one entry,
naming the export, per such variable (`warnOf`) — and this case never
changes `Init()`'s result (the result is the same as for an empty variable
list). -/
theorem init_unimplemented_binding
    (gm : GenModule) (mem : Mem) (ienv : InitEnv)
    (vars l1 l2 : List VariableSymbol) (var : VariableSymbol) (ke : KernelExport)
    (hok : ienv.getVarsOk = true)
    (hsplit : vars = l1 ++ var :: l2)
    (hke : var.kernel_export = some ke)
    (hty : ke.type ≠ ExportType.Function)
    (himp : ke.is_implemented = false)
    (hdisj : ∀ w ∈ l2, ∀ b, w.writesAt = some b →
      b + 4 ≤ var.address ∨ var.address + 4 ≤ b) :
    read32BE (ExecModule.Init gm mem ienv vars).mem var.address = 0xDEADBEEF ∧
    (ExecModule.Init gm mem ienv vars).warnings = vars.filterMap warnOf ∧
    warnOf var = some (warnMsg ke.name) ∧
    (ExecModule.Init gm mem ienv vars).result =
      (ExecModule.Init gm mem ienv []).result := by
  refine ⟨?_, ?_, ?_, init_result_const gm mem ienv vars⟩
  · rw [init_mem_eq gm mem ienv vars hok, hsplit, bindVariables_append_cons]
    have hbind : (bindVariable (bindVariables { mem := mem, warnings := [] } l1) var).mem =
        write32BE (bindVariables { mem := mem, warnings := [] } l1).mem var.address
          0xDEADBEEF := by
      simp [bindVariable, hke, hty, himp]
    have hframe : ∀ y, var.address ≤ y → y < var.address + 4 →
        (bindVariables (bindVariable (bindVariables { mem := mem, warnings := [] } l1) var) l2).mem y =
          (bindVariable (bindVariables { mem := mem, warnings := [] } l1) var).mem y := by
      intro y hy1 hy2
      apply bindVariables_mem_frame
      intro w hw a ha
      rcases hdisj w hw a ha with h | h <;> omega
    have hcongr : read32BE (bindVariables (bindVariable (bindVariables { mem := mem, warnings := [] } l1) var) l2).mem var.address =
        read32BE (bindVariable (bindVariables { mem := mem, warnings := [] } l1) var).mem var.address := by
      apply read32BE_congr
      · exact hframe var.address (Nat.le_refl _) (by omega)
      · exact hframe (var.address + 1) (by omega) (by omega)
      · exact hframe (var.address + 2) (by omega) (by omega)
      · exact hframe (var.address + 3) (by omega) (by omega)
    rw [hcongr, hbind, read32BE_write32BE]
    omega
  · rw [init_warnings_eq gm mem ienv vars hok, bindVariables_warnings]
    rfl
  · simp [warnOf, hke, hty, himp]

/-- Claim C6, witness: one unbound-value export gets the sentinel and a
single warning naming it; the result matches the empty-list run. -/
theorem init_unimplemented_binding_witness :
    read32BE (ExecModule.Init gmW mem0 ienv0 [varSymU]).mem varSymU.address =
      0xDEADBEEF ∧
    (ExecModule.Init gmW mem0 ienv0 [varSymU]).warnings =
      [varSymU].filterMap warnOf ∧
    warnOf varSymU = some (warnMsg keUnimpl.name) ∧
    (ExecModule.Init gmW mem0 ienv0 [varSymU]).result =
      (ExecModule.Init gmW mem0 ienv0 []).result :=
  init_unimplemented_binding gmW mem0 ienv0 [varSymU] [] [] varSymU keUnimpl rfl rfl
    rfl (by decide) rfl (by simp)

-- ### Claim C7

/-- Claim C7: for a variable symbol bound to a function-kind kernel export,
the binding step of `Init()` is a complete no-op (the explicitly-unhandled
case of the source is preserved), and the guest memory at that variable's
address is unchanged once `Init()` has run over the whole database. -/
theorem init_function_kind_noop
    (gm : GenModule) (mem : Mem) (ienv : InitEnv)
    (vars : List VariableSymbol) (var : VariableSymbol) (ke : KernelExport)
    (s : BindState)
    (hok : ienv.getVarsOk = true)
    (hvar : var ∈ vars)
    (hke : var.kernel_export = some ke)
    (hty : ke.type = ExportType.Function)
    (hdisj : ∀ w ∈ vars, ∀ b, w.writesAt = some b →
      b + 4 ≤ var.address ∨ var.address + 4 ≤ b) :
    bindVariable s var = s ∧
    (∀ x, var.address ≤ x → x < var.address + 4 →
      (ExecModule.Init gm mem ienv vars).mem x = mem x) := by
  constructor
  · exact bindVariable_none s var (by simp [VariableSymbol.writesAt, hke, hty])
  · intro x hx1 hx2
    rw [init_mem_eq gm mem ienv vars hok]
    apply bindVariables_mem_frame
    intro w hw a ha
    rcases hdisj w hw a ha with h | h <;> omega

/-- Claim C7, witness: a function-kind binding at `0x300` leaves the memory
word there untouched. -/
theorem init_function_kind_noop_witness :
    bindVariable { mem := mem0, warnings := [] } varSymF =
      { mem := mem0, warnings := [] } ∧
    (∀ x, varSymF.address ≤ x → x < varSymF.address + 4 →
      (ExecModule.Init gmW mem0 ienv0 [varSymF]).mem x = mem0 x) :=
  init_function_kind_noop gmW mem0 ienv0 [varSymF] varSymF keFn
    { mem := mem0, warnings := [] } rfl (by simp) rfl rfl
    (by
      intro w hw b hb
      simp only [List.mem_singleton] at hw
      subst hw
      simp [VariableSymbol.writesAt, varSymF, keFn] at hb)

-- ### Claim C10

/-- Claim C10: the variable-binding phase of `Init()` writes exactly one
4-byte word per variable symbol bound to a non-function export, at that
symbol's address (a binding step never changes memory outside the 4-byte
window at its `writesAt` address, and a symbol with no binding — or a
function-kind binding — changes nothing at all); consequently memory at
any address outside every bound symbol's window is unchanged by `Init()`. -/
theorem init_frame_effect
    (gm : GenModule) (mem : Mem) (ienv : InitEnv)
    (vars : List VariableSymbol) (x : Nat)
    (hok : ienv.getVarsOk = true)
    (hx : ∀ w ∈ vars, ∀ b, w.writesAt = some b → x < b ∨ b + 4 ≤ x) :
    (∀ s w, w.writesAt = none → bindVariable s w = s) ∧
    (∀ s w a, w.writesAt = some a → ∀ y, y < a ∨ a + 4 ≤ y →
      (bindVariable s w).mem y = s.mem y) ∧
    (ExecModule.Init gm mem ienv vars).mem x = mem x := by
  refine ⟨fun s w hw => bindVariable_none s w hw, ?_, ?_⟩
  · intro s w a ha y hy
    apply bindVariable_mem_outside
    intro b hb
    have hab : a = b := by
      have := ha.symm.trans hb
      injection this
    subst hab
    exact hy
  · rw [init_mem_eq gm mem ienv vars hok]
    exact bindVariables_mem_frame vars _ x hx

/-- Claim C10, witness: address `0` is outside the single bound variable's
window at `0x100` and is untouched by `Init()`. -/
theorem init_frame_effect_witness :
    (∀ s w, w.writesAt = none → bindVariable s w = s) ∧
    (∀ s w a, w.writesAt = some a → ∀ y, y < a ∨ a + 4 ≤ y →
      (bindVariable s w).mem y = s.mem y) ∧
    (ExecModule.Init gmW mem0 ienv0 [varSym]).mem 0 = mem0 0 :=
  init_frame_effect gmW mem0 ienv0 [varSym] 0 rfl
    (by
      intro w hw b hb
      simp only [List.mem_singleton] at hw
      subst hw
      simp [VariableSymbol.writesAt, varSym, keVar] at hb
      omega)

-- ### The Prepare() pipeline

/-- The global configuration flags consulted by `Prepare()`
(`FLAGS_dump_module_map`, `FLAGS_dump_module_bitcode`,
`FLAGS_optimize_ir_modules`). -/
structure Flags where
  dump_module_map : Bool
  dump_module_bitcode : Bool
  optimize_ir_modules : Bool
deriving DecidableEq, Repr

/-- Observable steps of a `Prepare()` run, in execution order, used to
state ordering and occurrence properties. -/
inductive Ev
  | loadThunk
  | parseThunk
  | analyze
  | writeMap
  | createModule
  | injectGlobals
  | linkThunk
  | generate
  | openPreopt
  | writePreopt
  | materialize
  | setTriple
  | runDataLayout
  | runVerifyPass
  | runOptPasses
  | openPostopt
  | writePostopt
  | runInit
  | jitFunction
deriving DecidableEq, Repr

/-- A pass added to the `PassManager` in `Prepare()` (the optimization
passes populated by `PassManagerBuilder` are collapsed into one entry). -/
inductive Pass
  | dataLayout
  | verifier
  | optimization
deriving DecidableEq, Repr

/-- The pass list `Prepare()` builds: `DataLayout` always, then — only when
`FLAGS_optimize_ir_modules` is set — a verifier pass followed by the
aggressive optimization pipeline, and finally one more verifier pass added
outside the conditional. -/
def buildPassList (optimize : Bool) : List Pass :=
  [Pass.dataLayout] ++
    (if optimize then [Pass.verifier, Pass.optimization] else []) ++
    [Pass.verifier]

/-- Event emitted when `pm.run` executes one pass. -/
def passEv : Pass → Ev
  | Pass.dataLayout => Ev.runDataLayout
  | Pass.verifier => Ev.runVerifyPass
  | Pass.optimization => Ev.runOptPasses

/-- The events of `pm.run(*gen_module_)`. -/
def passEvents (optimize : Bool) : List Ev :=
  (buildPassList optimize).map passEv

/-- The symbol-map dump: performed only under `FLAGS_dump_module_map`; the
status returned by `sdb_->Write` is discarded by the caller. -/
def mapEvs (b : Bool) : List Ev :=
  if b then [Ev.writeMap] else []

/-- The five (six, counting both trace hooks) native-callback trampolines
`InjectGlobals` declares in the generated module; `Function::Create` with
no body yields declarations. -/
def trampolineDecls : List Fn :=
  [{ name := "XeTrap", isDeclaration := true },
   { name := "XeIndirectBranch", isDeclaration := true },
   { name := "XeInvalidInstruction", isDeclaration := true },
   { name := "XeTraceKernelCall", isDeclaration := true },
   { name := "XeTraceUserCall", isDeclaration := true },
   { name := "XeTraceInstruction", isDeclaration := true }]

/-- A fresh `llvm::Module` (`new Module(module_name_, context)`). -/
def emptyModule : GenModule :=
  { functions := [], globals := [] }

/-- `ExecModule::InjectGlobals`: publish `xe_memory_base` and declare the
trampolines (their native bindings live in the execution engine). The
source function unconditionally returns 0, so the `XEEXPECTZERO` guard on
it never fires. -/
def injectGlobals (gm : GenModule) : GenModule :=
  { functions := gm.functions ++ trampolineDecls,
    globals := gm.globals ++ ["xe_memory_base"] }

/-- `Linker::LinkModules(gen_module_, shared_module, ...)`: the runtime
support module's contents join the generated module. The source ignores
the linker's status. -/
def linkThunk (gm : GenModule) (thunk : List Fn) : GenModule :=
  { gm with functions := gm.functions ++ thunk }

/-- `codegen_->Generate()` on success: one translated function per
discovered function symbol is appended to the module. -/
def generate (gm : GenModule) (fns : List Fn) : GenModule :=
  { gm with functions := gm.functions ++ fns }

/-- The forced-eager-compilation loop: one `getPointerToFunction` call per
function of the module that is not a mere declaration. -/
def jitEvents (gm : GenModule) : List Ev :=
  (gm.functions.filter (fun f => !f.isDeclaration)).map (fun _ => Ev.jitFunction)

/-- The mutable fields of an `ExecModule` the claims are about: the
lazily-created generated module, the guest memory view, and the warnings
logged so far. -/
structure ExecState where
  gen_module : Option GenModule
  mem : Mem
  warnings : List String

/-- Result of a `Prepare()` run: the returned code (`some 0` success,
`some 1` the `XECLEANUP` failure path, `none` a crash inside `Init`), the
state left behind, and the event trace. -/
structure PrepOut where
  result : Option Int
  state : ExecState
  events : List Ev

/-- Collaborator outcomes and configuration consulted by one `Prepare()`
run. `mapWriteOk` is the status of `sdb_->Write` for the symbol-map dump;
the source never reads it. `preoptStreamOk` / `postoptStreamOk` say
whether `error_message` is still empty after constructing the
`raw_fd_ostream` for the respective bitcode dump (`XEEXPECTTRUE` checks
exactly that). -/
structure PrepEnv where
  flags : Flags
  thunkReadOk : Bool
  thunkParseOk : Bool
  analyzeOk : Bool
  mapWriteOk : Bool
  thunkFns : List Fn
  generateOk : Bool
  generatedFns : List Fn
  preoptStreamOk : Bool
  materializeOk : Bool
  postoptStreamOk : Bool
  getVarsOk : Bool
  varSyms : List VariableSymbol
  initFnResult : Int
deriving Repr

/-- Outcome of the generation block guarded by `if (!gen_module_.get())`:
either an early `XECLEANUP` return, or the state with the freshly built
module and the trace so far. -/
inductive GenOut
  | fail (out : PrepOut)
  | ok (st : ExecState) (gm : GenModule) (ev : List Ev)

/-- The generation block of `Prepare()` (lines guarded by
`if (!gen_module_.get())`): load and parse the runtime support bitcode,
run symbol analysis, optionally dump the symbol map (status discarded),
create the module, inject globals, link the runtime module, generate code,
and optionally dump pre-optimization bitcode — each `XEEXPECT` jumping to
cleanup with result 1. `gen_module_` is assigned before code generation,
so generation/dump failures leave it set. -/
def genPhase (st : ExecState) (env : PrepEnv) : GenOut :=
  if env.thunkReadOk = false then
    GenOut.fail { result := some 1, state := st, events := [Ev.loadThunk] }
  else if env.thunkParseOk = false then
    GenOut.fail { result := some 1, state := st,
                  events := [Ev.loadThunk, Ev.parseThunk] }
  else if env.analyzeOk = false then
    GenOut.fail { result := some 1, state := st,
                  events := [Ev.loadThunk, Ev.parseThunk, Ev.analyze] }
  else
    let ev1 := [Ev.loadThunk, Ev.parseThunk, Ev.analyze] ++
      mapEvs env.flags.dump_module_map
    let gm2 := linkThunk (injectGlobals emptyModule) env.thunkFns
    let ev2 := ev1 ++ [Ev.createModule, Ev.injectGlobals, Ev.linkThunk]
    if env.generateOk = false then
      GenOut.fail { result := some 1,
                    state := { st with gen_module := some gm2 },
                    events := ev2 ++ [Ev.generate] }
    else
      let gm3 := generate gm2 env.generatedFns
      let ev3 := ev2 ++ [Ev.generate]
      if env.flags.dump_module_bitcode = true then
        if env.preoptStreamOk = false then
          GenOut.fail { result := some 1,
                        state := { st with gen_module := some gm3 },
                        events := ev3 ++ [Ev.openPreopt] }
        else
          GenOut.ok { st with gen_module := some gm3 } gm3
            (ev3 ++ [Ev.openPreopt, Ev.writePreopt])
      else
        GenOut.ok { st with gen_module := some gm3 } gm3 ev3

/-- The tail of `Prepare()`: `XEEXPECTZERO(Init())` followed by the
forced-JIT loop over all defined functions, then `result_code = 0`. -/
def runInitAndJit (st : ExecState) (gm : GenModule) (env : PrepEnv)
    (ev : List Ev) : PrepOut :=
  let iout := ExecModule.Init gm st.mem
    { getVarsOk := env.getVarsOk, initFnResult := env.initFnResult }
    env.varSyms
  let st' : ExecState :=
    { st with mem := iout.mem, warnings := st.warnings ++ iout.warnings }
  match iout.result with
  | none => { result := none, state := st', events := ev ++ [Ev.runInit] }
  | some r =>
    if r = 0 then
      { result := some 0, state := st',
        events := ev ++ Ev.runInit :: jitEvents gm }
    else
      { result := some 1, state := st', events := ev ++ [Ev.runInit] }

/-- The shared tail of `Prepare()` that runs whether or not the module was
just generated: materialize all symbols (hard fail), reset the target
triple, build and run the pass pipeline, optionally dump post-optimization
bitcode (`XEEXPECTTRUE` on the stream is a hard fail), then `Init()` and
the forced-JIT loop. -/
def prepareShared (st : ExecState) (gm : GenModule) (env : PrepEnv)
    (ev : List Ev) : PrepOut :=
  if env.materializeOk = false then
    { result := some 1, state := st, events := ev ++ [Ev.materialize] }
  else if env.flags.optimize_ir_modules && env.flags.dump_module_bitcode then
    if env.postoptStreamOk = false then
      { result := some 1, state := st,
        events := (ev ++ Ev.materialize :: Ev.setTriple ::
          passEvents env.flags.optimize_ir_modules) ++ [Ev.openPostopt] }
    else
      runInitAndJit st gm env
        ((ev ++ Ev.materialize :: Ev.setTriple ::
          passEvents env.flags.optimize_ir_modules) ++
          [Ev.openPostopt, Ev.writePostopt])
  else
    runInitAndJit st gm env
      (ev ++ Ev.materialize :: Ev.setTriple ::
        passEvents env.flags.optimize_ir_modules)

/-- `ExecModule::Prepare`: when no generated module exists yet, run the
generation block first; a module that already exists is reused as-is and
control falls through to the shared tail directly. -/
def ExecModule.Prepare (st : ExecState) (env : PrepEnv) : PrepOut :=
  match st.gen_module with
  | some gm => prepareShared st gm env []
  | none =>
    match genPhase st env with
    | GenOut.fail out => out
    | GenOut.ok st' gm ev => prepareShared st' gm env ev

lemma prepare_none_eq (st : ExecState) (env : PrepEnv)
    (h0 : st.gen_module = none) :
    ExecModule.Prepare st env =
      (match genPhase st env with
       | GenOut.fail out => out
       | GenOut.ok st' gm ev => prepareShared st' gm env ev) := by
  unfold ExecModule.Prepare
  rw [h0]

lemma prepare_some_eq (st : ExecState) (gm : GenModule) (env : PrepEnv)
    (h0 : st.gen_module = some gm) :
    ExecModule.Prepare st env = prepareShared st gm env [] := by
  unfold ExecModule.Prepare
  rw [h0]

-- ### Structural lemmas about the pipeline trace

/-- Events that can occur in the shared tail after `materialize`. -/
def sharedAllowed : List Ev :=
  [Ev.setTriple, Ev.runDataLayout, Ev.runVerifyPass, Ev.runOptPasses,
   Ev.openPostopt, Ev.writePostopt, Ev.runInit, Ev.jitFunction]

lemma mem_of_idx {α : Type} {l : List α} {i : Nat} {a : α}
    (h : l[i]? = some a) : a ∈ l := by
  induction l generalizing i with
  | nil => simp at h
  | cons b t ih =>
    cases i with
    | zero =>
      rw [List.getElem?_cons_zero] at h
      cases h
      exact List.mem_cons_self _ _
    | succ k =>
      rw [List.getElem?_cons_succ] at h
      exact List.mem_cons_of_mem _ (ih h)

lemma jit_preceded (A B : List Ev) (hA : Ev.jitFunction ∉ A) :
    ∀ i : Nat, (A ++ Ev.runInit :: B)[i]? = some Ev.jitFunction →
      ∃ j : Nat, j < i ∧ (A ++ Ev.runInit :: B)[j]? = some Ev.runInit := by
  induction A with
  | nil =>
    intro i hi
    cases i with
    | zero => simp at hi
    | succ k =>
      refine ⟨0, Nat.succ_pos k, ?_⟩
      simp
  | cons a t ih =>
    intro i hi
    have ht : Ev.jitFunction ∉ t := fun hmem => hA (List.mem_cons_of_mem _ hmem)
    have ha : a ≠ Ev.jitFunction := fun he => hA (he ▸ List.mem_cons_self _ _)
    cases i with
    | zero =>
      rw [List.cons_append, List.getElem?_cons_zero] at hi
      cases hi
      exact absurd rfl ha
    | succ k =>
      rw [List.cons_append, List.getElem?_cons_succ] at hi
      obtain ⟨j, hj1, hj2⟩ := ih ht k hi
      refine ⟨j + 1, Nat.succ_lt_succ hj1, ?_⟩
      rw [List.cons_append, List.getElem?_cons_succ]
      exact hj2

lemma noJit_passEvents (b : Bool) : Ev.jitFunction ∉ passEvents b := by
  cases b <;> decide

lemma passEvents_sub (b : Bool) : ∀ e ∈ passEvents b, e ∈ sharedAllowed := by
  cases b <;> decide

lemma verify_in_passEvents (b : Bool) : Ev.runVerifyPass ∈ passEvents b := by
  cases b <;> decide

lemma jitEvents_all (gm : GenModule) : ∀ e ∈ jitEvents gm, e = Ev.jitFunction := by
  intro e he
  unfold jitEvents at he
  rcases List.mem_map.mp he with ⟨f, _, hfe⟩
  exact hfe.symm

lemma runInitAndJit_shape (st : ExecState) (gm : GenModule) (env : PrepEnv)
    (ev : List Ev) :
    ∃ B, (runInitAndJit st gm env ev).events = ev ++ Ev.runInit :: B ∧
      (∀ e ∈ B, e = Ev.jitFunction) ∧
      (runInitAndJit st gm env ev).state.gen_module = st.gen_module := by
  unfold runInitAndJit
  rcases hres : (ExecModule.Init gm st.mem
    { getVarsOk := env.getVarsOk, initFnResult := env.initFnResult }
    env.varSyms).result with _ | r
  · refine ⟨[], ?_, ?_, ?_⟩ <;> simp [hres]
  · by_cases hr : r = 0
    · refine ⟨jitEvents gm, ?_, jitEvents_all gm, ?_⟩ <;> simp [hres, hr]
    · refine ⟨[], ?_, ?_, ?_⟩ <;> simp [hres, hr]

lemma prepareShared_eq_matfail (st : ExecState) (gm : GenModule) (env : PrepEnv)
    (ev : List Ev) (hmat : env.materializeOk = false) :
    prepareShared st gm env ev =
      { result := some 1, state := st, events := ev ++ [Ev.materialize] } := by
  unfold prepareShared
  rw [if_pos hmat]

lemma prepareShared_eq_noDump (st : ExecState) (gm : GenModule) (env : PrepEnv)
    (ev : List Ev) (hmat : env.materializeOk = true)
    (hcond : (env.flags.optimize_ir_modules && env.flags.dump_module_bitcode) = false) :
    prepareShared st gm env ev = runInitAndJit st gm env
      (ev ++ Ev.materialize :: Ev.setTriple ::
        passEvents env.flags.optimize_ir_modules) := by
  unfold prepareShared
  rw [if_neg (by simp [hmat]), if_neg (by simp [hcond])]

lemma prepareShared_eq_postfail (st : ExecState) (gm : GenModule) (env : PrepEnv)
    (ev : List Ev) (hmat : env.materializeOk = true)
    (hcond : (env.flags.optimize_ir_modules && env.flags.dump_module_bitcode) = true)
    (hpost : env.postoptStreamOk = false) :
    prepareShared st gm env ev =
      { result := some 1, state := st,
        events := (ev ++ Ev.materialize :: Ev.setTriple ::
          passEvents env.flags.optimize_ir_modules) ++ [Ev.openPostopt] } := by
  unfold prepareShared
  rw [if_neg (by simp [hmat]), if_pos hcond, if_pos hpost]

lemma prepareShared_eq_postdump (st : ExecState) (gm : GenModule) (env : PrepEnv)
    (ev : List Ev) (hmat : env.materializeOk = true)
    (hcond : (env.flags.optimize_ir_modules && env.flags.dump_module_bitcode) = true)
    (hpost : env.postoptStreamOk = true) :
    prepareShared st gm env ev = runInitAndJit st gm env
      ((ev ++ Ev.materialize :: Ev.setTriple ::
        passEvents env.flags.optimize_ir_modules) ++
        [Ev.openPostopt, Ev.writePostopt]) := by
  unfold prepareShared
  rw [if_neg (by simp [hmat]), if_pos hcond, if_neg (by simp [hpost])]

lemma prepareShared_shape (st : ExecState) (gm : GenModule) (env : PrepEnv)
    (ev : List Ev) :
    ∃ rest, (prepareShared st gm env ev).events = ev ++ Ev.materialize :: rest ∧
      (∀ e ∈ rest, e ∈ sharedAllowed) ∧
      (prepareShared st gm env ev).state.gen_module = st.gen_module := by
  rcases hmat : env.materializeOk with _ | _
  · rw [prepareShared_eq_matfail st gm env ev hmat]
    exact ⟨[], rfl, by simp, rfl⟩
  · rcases hcond : (env.flags.optimize_ir_modules && env.flags.dump_module_bitcode)
      with _ | _
    · rw [prepareShared_eq_noDump st gm env ev hmat hcond]
      obtain ⟨B, hB, hBall, hgm⟩ := runInitAndJit_shape st gm env
        (ev ++ Ev.materialize :: Ev.setTriple ::
          passEvents env.flags.optimize_ir_modules)
      refine ⟨Ev.setTriple :: (passEvents env.flags.optimize_ir_modules ++
        Ev.runInit :: B), ?_, ?_, hgm⟩
      · rw [hB]; simp
      · intro e he
        rcases List.mem_cons.mp he with h | h
        · subst h; decide
        · rcases List.mem_append.mp h with h | h
          · exact passEvents_sub _ e h
          · rcases List.mem_cons.mp h with h | h
            · subst h; decide
            · rw [hBall e h]; decide
    · rcases hpost : env.postoptStreamOk with _ | _
      · rw [prepareShared_eq_postfail st gm env ev hmat hcond hpost]
        refine ⟨Ev.setTriple :: (passEvents env.flags.optimize_ir_modules ++
          [Ev.openPostopt]), ?_, ?_, rfl⟩
        · simp
        · intro e he
          rcases List.mem_cons.mp he with h | h
          · subst h; decide
          · rcases List.mem_append.mp h with h | h
            · exact passEvents_sub _ e h
            · simp at h; subst h; decide
      · rw [prepareShared_eq_postdump st gm env ev hmat hcond hpost]
        obtain ⟨B, hB, hBall, hgm⟩ := runInitAndJit_shape st gm env
          ((ev ++ Ev.materialize :: Ev.setTriple ::
            passEvents env.flags.optimize_ir_modules) ++
            [Ev.openPostopt, Ev.writePostopt])
        refine ⟨Ev.setTriple :: (passEvents env.flags.optimize_ir_modules ++
          Ev.openPostopt :: Ev.writePostopt :: Ev.runInit :: B), ?_, ?_, hgm⟩
        · rw [hB]; simp
        · intro e he
          rcases List.mem_cons.mp he with h | h
          · subst h; decide
          · rcases List.mem_append.mp h with h | h
            · exact passEvents_sub _ e h
            · rcases List.mem_cons.mp h with h | h
              · subst h; decide
              · rcases List.mem_cons.mp h with h | h
                · subst h; decide
                · rcases List.mem_cons.mp h with h | h
                  · subst h; decide
                  · rw [hBall e h]; decide

lemma genPhase_fail_facts (st : ExecState) (env : PrepEnv) (out : PrepOut)
    (h : genPhase st env = GenOut.fail out) :
    out.result = some 1 ∧ Ev.jitFunction ∉ out.events := by
  simp only [genPhase] at h
  split at h
  · cases h
    exact ⟨rfl, by simp⟩
  · split at h
    · cases h
      exact ⟨rfl, by simp⟩
    · split at h
      · cases h
        exact ⟨rfl, by simp⟩
      · split at h
        · cases h
          refine ⟨rfl, ?_⟩
          rcases hdm : env.flags.dump_module_map with _ | _ <;>
            simp [hdm, mapEvs]
        · split at h
          · split at h
            · cases h
              refine ⟨rfl, ?_⟩
              rcases hdm : env.flags.dump_module_map with _ | _ <;>
                simp [hdm, mapEvs]
            · cases h
          · cases h

lemma genPhase_ok_facts (st : ExecState) (env : PrepEnv) (st' : ExecState)
    (gm : GenModule) (ev : List Ev)
    (h : genPhase st env = GenOut.ok st' gm ev) :
    st'.gen_module = some gm ∧ ev.count Ev.generate = 1 ∧
      Ev.jitFunction ∉ ev := by
  simp only [genPhase] at h
  split at h
  · cases h
  · split at h
    · cases h
    · split at h
      · cases h
      · split at h
        · cases h
        · split at h
          · split at h
            · cases h
            · injection h with h1 h2 h3
              subst h1
              subst h2
              subst h3
              refine ⟨rfl, ?_, ?_⟩ <;>
                (rcases hdm : env.flags.dump_module_map with _ | _ <;>
                  simp only [hdm, mapEvs] <;> decide)
          · injection h with h1 h2 h3
            subst h1
            subst h2
            subst h3
            refine ⟨rfl, ?_, ?_⟩ <;>
              (rcases hdm : env.flags.dump_module_map with _ | _ <;>
                simp only [hdm, mapEvs] <;> decide)

lemma prepareShared_jit_after (st : ExecState) (gm : GenModule) (env : PrepEnv)
    (ev : List Ev) (hev : Ev.jitFunction ∉ ev) (i : Nat)
    (h : (prepareShared st gm env ev).events[i]? = some Ev.jitFunction) :
    ∃ j : Nat, j < i ∧
      (prepareShared st gm env ev).events[j]? = some Ev.runInit := by
  have hpre : ∀ b : Bool, Ev.jitFunction ∉
      ev ++ Ev.materialize :: Ev.setTriple :: passEvents b := by
    intro b hmem
    rcases List.mem_append.mp hmem with hm | hm
    · exact hev hm
    · rcases List.mem_cons.mp hm with hm | hm
      · exact Ev.noConfusion hm
      · rcases List.mem_cons.mp hm with hm | hm
        · exact Ev.noConfusion hm
        · exact noJit_passEvents b hm
  rcases hmat : env.materializeOk with _ | _
  · rw [prepareShared_eq_matfail st gm env ev hmat] at h
    exfalso
    rcases List.mem_append.mp (mem_of_idx h) with hm | hm
    · exact hev hm
    · simp at hm
  · rcases hcond : (env.flags.optimize_ir_modules &&
      env.flags.dump_module_bitcode) with _ | _
    · rw [prepareShared_eq_noDump st gm env ev hmat hcond] at h ⊢
      obtain ⟨B, hB, _, _⟩ := runInitAndJit_shape st gm env
        (ev ++ Ev.materialize :: Ev.setTriple ::
          passEvents env.flags.optimize_ir_modules)
      rw [hB] at h ⊢
      exact jit_preceded _ B (hpre _) i h
    · rcases hpost : env.postoptStreamOk with _ | _
      · rw [prepareShared_eq_postfail st gm env ev hmat hcond hpost] at h
        exfalso
        rcases List.mem_append.mp (mem_of_idx h) with hm | hm
        · exact hpre _ hm
        · simp at hm
      · rw [prepareShared_eq_postdump st gm env ev hmat hcond hpost] at h ⊢
        obtain ⟨B, hB, _, _⟩ := runInitAndJit_shape st gm env
          ((ev ++ Ev.materialize :: Ev.setTriple ::
            passEvents env.flags.optimize_ir_modules) ++
            [Ev.openPostopt, Ev.writePostopt])
        rw [hB] at h ⊢
        refine jit_preceded _ B ?_ i h
        intro hmem
        rcases List.mem_append.mp hmem with hm | hm
        · exact hpre _ hm
        · simp at hm

lemma prepareShared_verify (st : ExecState) (gm : GenModule) (env : PrepEnv)
    (ev : List Ev) (hm : env.materializeOk = true) :
    Ev.runVerifyPass ∈ (prepareShared st gm env ev).events := by
  rcases hcond : (env.flags.optimize_ir_modules &&
    env.flags.dump_module_bitcode) with _ | _
  · rw [prepareShared_eq_noDump st gm env ev hm hcond]
    obtain ⟨B, hB, _, _⟩ := runInitAndJit_shape st gm env
      (ev ++ Ev.materialize :: Ev.setTriple ::
        passEvents env.flags.optimize_ir_modules)
    rw [hB]
    refine List.mem_append.mpr (Or.inl ?_)
    refine List.mem_append.mpr (Or.inr ?_)
    exact List.mem_cons_of_mem _ (List.mem_cons_of_mem _ (verify_in_passEvents _))
  · rcases hpost : env.postoptStreamOk with _ | _
    · rw [prepareShared_eq_postfail st gm env ev hm hcond hpost]
      refine List.mem_append.mpr (Or.inl ?_)
      refine List.mem_append.mpr (Or.inr ?_)
      exact List.mem_cons_of_mem _ (List.mem_cons_of_mem _ (verify_in_passEvents _))
    · rw [prepareShared_eq_postdump st gm env ev hm hcond hpost]
      obtain ⟨B, hB, _, _⟩ := runInitAndJit_shape st gm env
        ((ev ++ Ev.materialize :: Ev.setTriple ::
          passEvents env.flags.optimize_ir_modules) ++
          [Ev.openPostopt, Ev.writePostopt])
      rw [hB]
      refine List.mem_append.mpr (Or.inl ?_)
      refine List.mem_append.mpr (Or.inl ?_)
      refine List.mem_append.mpr (Or.inr ?_)
      exact List.mem_cons_of_mem _ (List.mem_cons_of_mem _ (verify_in_passEvents _))

lemma not_in_mat_shared (e : Ev) (rest : List Ev)
    (hallow : ∀ x ∈ rest, x ∈ sharedAllowed) (he : e ∉ sharedAllowed)
    (hne : e ≠ Ev.materialize) : e ∉ Ev.materialize :: rest := by
  intro hmem
  rcases List.mem_cons.mp hmem with h | h
  · exact hne h
  · exact he (hallow _ h)

-- ### Concrete pipeline instances

def flags0 : Flags :=
  { dump_module_map := false, dump_module_bitcode := false,
    optimize_ir_modules := false }

def fnSub : Fn := { name := "sub_1000", isDeclaration := false }

def env0 : PrepEnv :=
  { flags := flags0, thunkReadOk := true, thunkParseOk := true,
    analyzeOk := true, mapWriteOk := true, thunkFns := thunkFns0,
    generateOk := true, generatedFns := [fnSub], preoptStreamOk := true,
    materializeOk := true, postoptStreamOk := true, getVarsOk := true,
    varSyms := [], initFnResult := 0 }

def st0 : ExecState := { gen_module := none, mem := mem0, warnings := [] }

def stG : ExecState := { gen_module := some gmW, mem := mem0, warnings := [] }

def env0c : PrepEnv :=
  { env0 with
    flags := { dump_module_map := false, dump_module_bitcode := true,
               optimize_ir_modules := false },
    preoptStreamOk := false }

def env0a : PrepEnv := { env0 with analyzeOk := false }

-- ### Claim C1

/-- Claim C1: `Prepare()` is idempotent. If a first `Prepare()` on a module
with no generated module succeeds, it performs code generation exactly
once, and a second `Prepare()` (under any collaborator outcomes `envB`)
performs no symbol analysis, no module creation, no global injection, no
linking and no code generation, starts directly at the materialize step,
and leaves the already-generated module's function set untouched. -/
theorem prepare_idempotent (st : ExecState) (env envB : PrepEnv)
    (h0 : st.gen_module = none)
    (h1 : (ExecModule.Prepare st env).result = some 0) :
    (ExecModule.Prepare st env).events.count Ev.generate = 1 ∧
    (ExecModule.Prepare (ExecModule.Prepare st env).state envB).events.count
      Ev.generate = 0 ∧
    Ev.analyze ∉
      (ExecModule.Prepare (ExecModule.Prepare st env).state envB).events ∧
    Ev.createModule ∉
      (ExecModule.Prepare (ExecModule.Prepare st env).state envB).events ∧
    Ev.injectGlobals ∉
      (ExecModule.Prepare (ExecModule.Prepare st env).state envB).events ∧
    Ev.linkThunk ∉
      (ExecModule.Prepare (ExecModule.Prepare st env).state envB).events ∧
    (ExecModule.Prepare (ExecModule.Prepare st env).state envB).events.head? =
      some Ev.materialize ∧
    (ExecModule.Prepare (ExecModule.Prepare st env).state envB).state.gen_module =
      (ExecModule.Prepare st env).state.gen_module := by
  rw [prepare_none_eq st env h0] at h1 ⊢
  rcases hG : genPhase st env with out | ⟨st1, gm, ev⟩ <;> simp only [hG] at h1 ⊢
  · rw [(genPhase_fail_facts st env out hG).1] at h1
    exact absurd h1 (by decide)
  · obtain ⟨hgm1, hcount, hnoJit⟩ := genPhase_ok_facts st env st1 gm ev hG
    obtain ⟨rest, hevents, hallow, hstate⟩ := prepareShared_shape st1 gm env ev
    have hp1gm : (prepareShared st1 gm env ev).state.gen_module = some gm := by
      rw [hstate, hgm1]
    rw [prepare_some_eq (prepareShared st1 gm env ev).state gm envB hp1gm]
    obtain ⟨rest2, hevents2, hallow2, hstate2⟩ :=
      prepareShared_shape (prepareShared st1 gm env ev).state gm envB []
    rw [List.nil_append] at hevents2
    refine ⟨?_, ?_, ?_, ?_, ?_, ?_, ?_, ?_⟩
    · rw [hevents, List.count_append, hcount,
        List.count_eq_zero.mpr
          (not_in_mat_shared _ _ hallow (by decide) (by decide))]
    · rw [hevents2]
      exact List.count_eq_zero.mpr
        (not_in_mat_shared _ _ hallow2 (by decide) (by decide))
    · rw [hevents2]
      exact not_in_mat_shared _ _ hallow2 (by decide) (by decide)
    · rw [hevents2]
      exact not_in_mat_shared _ _ hallow2 (by decide) (by decide)
    · rw [hevents2]
      exact not_in_mat_shared _ _ hallow2 (by decide) (by decide)
    · rw [hevents2]
      exact not_in_mat_shared _ _ hallow2 (by decide) (by decide)
    · rw [hevents2]
      rfl
    · exact hstate2

/-- Claim C1, witness: a successful raw-range preparation followed by a
second `Prepare()` on the resulting state. -/
theorem prepare_idempotent_witness :
    (ExecModule.Prepare st0 env0).events.count Ev.generate = 1 ∧
    (ExecModule.Prepare (ExecModule.Prepare st0 env0).state env0).events.count
      Ev.generate = 0 ∧
    Ev.analyze ∉
      (ExecModule.Prepare (ExecModule.Prepare st0 env0).state env0).events ∧
    Ev.createModule ∉
      (ExecModule.Prepare (ExecModule.Prepare st0 env0).state env0).events ∧
    Ev.injectGlobals ∉
      (ExecModule.Prepare (ExecModule.Prepare st0 env0).state env0).events ∧
    Ev.linkThunk ∉
      (ExecModule.Prepare (ExecModule.Prepare st0 env0).state env0).events ∧
    (ExecModule.Prepare (ExecModule.Prepare st0 env0).state env0).events.head? =
      some Ev.materialize ∧
    (ExecModule.Prepare (ExecModule.Prepare st0 env0).state env0).state.gen_module =
      (ExecModule.Prepare st0 env0).state.gen_module :=
  prepare_idempotent st0 env0 env0 rfl (by decide)

-- ### Claim C3 (corrected)

/-- Claim C3, counterexample: with every collaborator succeeding except
that opening the pre-optimization bitcode dump stream leaves a non-empty
`error_message`, `Prepare()` aborts with result 1 before the materialize
step ever runs — the dump failure is fatal, not recovered locally. -/
theorem dump_failure_counterexample :
    (ExecModule.Prepare st0 env0c).result = some 1 ∧
    Ev.materialize ∉ (ExecModule.Prepare st0 env0c).events ∧
    Ev.runInit ∉ (ExecModule.Prepare st0 env0c).events := by decide

/-- Claim C3 as amended: a failure of the symbol-map dump is non-fatal
(the status of `sdb_->Write` is discarded, so the whole run is unchanged
by it), but a failure opening the pre-optimization bitcode dump stream
aborts `Prepare()` with a nonzero result before materialization and
before `Init()`; likewise a failure opening the post-optimization dump
stream aborts `Prepare()` before `Init()`. -/
theorem dump_failure_amended (st : ExecState) (env : PrepEnv)
    (h0 : st.gen_module = none)
    (ht : env.thunkReadOk = true) (hp : env.thunkParseOk = true)
    (ha : env.analyzeOk = true) (hg : env.generateOk = true)
    (hd : env.flags.dump_module_bitcode = true)
    (hs : env.preoptStreamOk = false) :
    (∀ b : Bool, ExecModule.Prepare st { env with mapWriteOk := b } =
      ExecModule.Prepare st env) ∧
    (ExecModule.Prepare st env).result = some 1 ∧
    Ev.materialize ∉ (ExecModule.Prepare st env).events ∧
    Ev.runInit ∉ (ExecModule.Prepare st env).events ∧
    (∀ (st2 : ExecState) (gm : GenModule) (env2 : PrepEnv),
      st2.gen_module = some gm → env2.materializeOk = true →
      env2.flags.optimize_ir_modules = true →
      env2.flags.dump_module_bitcode = true →
      env2.postoptStreamOk = false →
      (ExecModule.Prepare st2 env2).result = some 1 ∧
      Ev.runInit ∉ (ExecModule.Prepare st2 env2).events) := by
  have hfail : genPhase st env = GenOut.fail
      { result := some 1,
        state := { st with gen_module := some (generate (linkThunk
          (injectGlobals emptyModule) env.thunkFns) env.generatedFns) },
        events := ((([Ev.loadThunk, Ev.parseThunk, Ev.analyze] ++
          mapEvs env.flags.dump_module_map) ++
          [Ev.createModule, Ev.injectGlobals, Ev.linkThunk]) ++ [Ev.generate]) ++
          [Ev.openPreopt] } := by
    unfold genPhase
    rw [if_neg (by simp [ht]), if_neg (by simp [hp]), if_neg (by simp [ha]),
      if_neg (by simp [hg]), if_pos hd, if_pos hs]
  refine ⟨fun b => rfl, ?_, ?_, ?_, ?_⟩
  · rw [prepare_none_eq st env h0, hfail]
  · rw [prepare_none_eq st env h0]
    simp only [hfail]
    rcases hdm : env.flags.dump_module_map with _ | _ <;> simp [hdm, mapEvs]
  · rw [prepare_none_eq st env h0]
    simp only [hfail]
    rcases hdm : env.flags.dump_module_map with _ | _ <;> simp [hdm, mapEvs]
  · intro st2 gm env2 h2 hm2 ho2 hd2 hpo2
    rw [prepare_some_eq st2 gm env2 h2,
      prepareShared_eq_postfail st2 gm env2 [] hm2 (by rw [ho2, hd2]; rfl) hpo2]
    refine ⟨rfl, ?_⟩
    simp [ho2, passEvents, buildPassList, passEv]

/-- Claim C3 as amended, witness: the concrete failing pre-optimization
dump run, with the symbol-map irrelevance and post-optimization cases
included. -/
theorem dump_failure_amended_witness :
    (∀ b : Bool, ExecModule.Prepare st0 { env0c with mapWriteOk := b } =
      ExecModule.Prepare st0 env0c) ∧
    (ExecModule.Prepare st0 env0c).result = some 1 ∧
    Ev.materialize ∉ (ExecModule.Prepare st0 env0c).events ∧
    Ev.runInit ∉ (ExecModule.Prepare st0 env0c).events ∧
    (∀ (st2 : ExecState) (gm : GenModule) (env2 : PrepEnv),
      st2.gen_module = some gm → env2.materializeOk = true →
      env2.flags.optimize_ir_modules = true →
      env2.flags.dump_module_bitcode = true →
      env2.postoptStreamOk = false →
      (ExecModule.Prepare st2 env2).result = some 1 ∧
      Ev.runInit ∉ (ExecModule.Prepare st2 env2).events) :=
  dump_failure_amended st0 env0c rfl rfl rfl rfl rfl rfl rfl

-- ### Claim C4 (corrected)

/-- Claim C4, counterexample: in a successful raw-range run the `Init()`
event sits at index 11 of the trace and the first forced-compilation event
at index 12 — forced eager compilation does not complete before `Init()`;
it has not even started when `Init()` runs. -/
theorem forced_compilation_order_counterexample :
    (ExecModule.Prepare st0 env0).events[11]? = some Ev.runInit ∧
    (ExecModule.Prepare st0 env0).events[12]? = some Ev.jitFunction ∧
    Ev.jitFunction ∉ (ExecModule.Prepare st0 env0).events.take 12 := by decide

/-- Claim C4 as amended: within `Prepare()` the order is reversed relative
to the claim — `Init()` runs first and forced eager compilation is the
final step: in any run, every forced-compilation event in the trace is
strictly preceded by the `Init()` event. -/
theorem init_before_forced_compilation (st : ExecState) (env : PrepEnv)
    (i : Nat)
    (h : (ExecModule.Prepare st env).events[i]? = some Ev.jitFunction) :
    ∃ j : Nat, j < i ∧
      (ExecModule.Prepare st env).events[j]? = some Ev.runInit := by
  rcases hgm : st.gen_module with _ | gm
  · rw [prepare_none_eq st env hgm] at h ⊢
    rcases hG : genPhase st env with out | ⟨st1, gm, ev⟩ <;>
      simp only [hG] at h ⊢
    · exact absurd (mem_of_idx h) (genPhase_fail_facts st env out hG).2
    · exact prepareShared_jit_after st1 gm env ev
        (genPhase_ok_facts st env st1 gm ev hG).2.2 i h
  · rw [prepare_some_eq st gm env hgm] at h ⊢
    exact prepareShared_jit_after st gm env [] (by simp) i h

/-- Claim C4 as amended, witness: the forced-compilation event at index 12
of the concrete run is preceded by the `Init()` event. -/
theorem init_before_forced_compilation_witness :
    ∃ j : Nat, j < 12 ∧
      (ExecModule.Prepare st0 env0).events[j]? = some Ev.runInit :=
  init_before_forced_compilation st0 env0 12 (by decide)

-- ### Claim C5 (corrected)

/-- Claim C5, counterexample: on a generated module that contains no
static-deinitialization entry point, `Uninit()` does not complete — the
source passes the null result of `getFunction("xe_module_uninit")` to
`runFunction` with no presence check, which crashes (modelled `none`). -/
theorem uninit_missing_entry_counterexample :
    ExecModule.Uninit emptyModule 0 = none := by decide

/-- Claim C5 as amended: `Uninit()` invokes the entry point
unconditionally — there is no presence check — and whenever the generated
module does contain `xe_module_uninit` (as it does once the runtime
support module is linked in), it runs it, runs engine static destructors,
and returns 0. Nothing in `Uninit()` depends on whether `Init()` ever
completed: its only input is the generated module (and the discarded
guest return value `r`). -/
theorem uninit_with_entry_point (gm : GenModule) (r : Int) (f : Fn)
    (h : gm.getFunction "xe_module_uninit" = some f) :
    ExecModule.Uninit gm r = some 0 := by
  unfold ExecModule.Uninit
  rw [h]
  rfl

/-- Claim C5 as amended, witness: a module holding the linked-in thunk
functions uninitializes cleanly. -/
theorem uninit_with_entry_point_witness : ExecModule.Uninit gmW 0 = some 0 :=
  uninit_with_entry_point gmW 0 fnUninit (by decide)

-- ### Claim C8

/-- Claim C8: if symbol-database analysis fails during a first `Prepare()`
(the runtime bitcode loaded and parsed, then `sdb_->Analyze()` returned
nonzero), `Prepare()` returns 1, the generated-module field remains unset,
and the trace stops at the analyze step — no module creation, injection,
linking, code generation, materialization, optimization/verification,
initialization, or compilation runs. -/
theorem prepare_analysis_failure (st : ExecState) (env : PrepEnv)
    (h0 : st.gen_module = none) (ht : env.thunkReadOk = true)
    (hp : env.thunkParseOk = true) (ha : env.analyzeOk = false) :
    (ExecModule.Prepare st env).result = some 1 ∧
    (ExecModule.Prepare st env).state.gen_module = none ∧
    (ExecModule.Prepare st env).events =
      [Ev.loadThunk, Ev.parseThunk, Ev.analyze] ∧
    Ev.createModule ∉ (ExecModule.Prepare st env).events ∧
    Ev.injectGlobals ∉ (ExecModule.Prepare st env).events ∧
    Ev.linkThunk ∉ (ExecModule.Prepare st env).events ∧
    Ev.generate ∉ (ExecModule.Prepare st env).events ∧
    Ev.materialize ∉ (ExecModule.Prepare st env).events ∧
    Ev.runVerifyPass ∉ (ExecModule.Prepare st env).events ∧
    Ev.runInit ∉ (ExecModule.Prepare st env).events ∧
    Ev.jitFunction ∉ (ExecModule.Prepare st env).events := by
  have hfail : genPhase st env = GenOut.fail
      { result := some 1, state := st,
        events := [Ev.loadThunk, Ev.parseThunk, Ev.analyze] } := by
    unfold genPhase
    rw [if_neg (by simp [ht]), if_neg (by simp [hp]), if_pos ha]
  rw [prepare_none_eq st env h0, hfail]
  refine ⟨rfl, h0, rfl, ?_, ?_, ?_, ?_, ?_, ?_, ?_, ?_⟩ <;> simp

/-- Claim C8, witness: the concrete analysis-failure run. -/
theorem prepare_analysis_failure_witness :
    (ExecModule.Prepare st0 env0a).result = some 1 ∧
    (ExecModule.Prepare st0 env0a).state.gen_module = none ∧
    (ExecModule.Prepare st0 env0a).events =
      [Ev.loadThunk, Ev.parseThunk, Ev.analyze] ∧
    Ev.createModule ∉ (ExecModule.Prepare st0 env0a).events ∧
    Ev.injectGlobals ∉ (ExecModule.Prepare st0 env0a).events ∧
    Ev.linkThunk ∉ (ExecModule.Prepare st0 env0a).events ∧
    Ev.generate ∉ (ExecModule.Prepare st0 env0a).events ∧
    Ev.materialize ∉ (ExecModule.Prepare st0 env0a).events ∧
    Ev.runVerifyPass ∉ (ExecModule.Prepare st0 env0a).events ∧
    Ev.runInit ∉ (ExecModule.Prepare st0 env0a).events ∧
    Ev.jitFunction ∉ (ExecModule.Prepare st0 env0a).events :=
  prepare_analysis_failure st0 env0a rfl rfl rfl rfl

-- ### Claim C9

/-- Claim C9: once materialization succeeds, the pass pipeline run by
`Prepare()` executes a verification pass regardless of the value of the
optimization flag (the flag is arbitrary in the run below), and for both
flag values the pass list ends with a verifier pass, so optimization can
never yield an unverified module. -/
theorem prepare_verify_unconditional (st : ExecState) (gm : GenModule)
    (env : PrepEnv) (h0 : st.gen_module = some gm)
    (hm : env.materializeOk = true) :
    Ev.runVerifyPass ∈ (ExecModule.Prepare st env).events ∧
    (∀ b : Bool, (buildPassList b).getLast? = some Pass.verifier) ∧
    (∀ b : Bool, Pass.verifier ∈ buildPassList b) := by
  refine ⟨?_, ?_, ?_⟩
  · rw [prepare_some_eq st gm env h0]
    exact prepareShared_verify st gm env [] hm
  · intro b
    cases b <;> decide
  · intro b
    cases b <;> decide

/-- Claim C9, witness: the verification pass runs in the concrete cached
run with the optimization flag off. -/
theorem prepare_verify_unconditional_witness :
    Ev.runVerifyPass ∈ (ExecModule.Prepare stG env0).events ∧
    (∀ b : Bool, (buildPassList b).getLast? = some Pass.verifier) ∧
    (∀ b : Bool, Pass.verifier ∈ buildPassList b) :=
  prepare_verify_unconditional stG gmW env0 rfl rfl
